import Mathlib

/-!
Verification of the `structlog_sentry` processor (`src/structlog_sentry/__init__.py`)
against its natural-language specification.

The Python module is shallowly embedded: the structlog `event_dict` becomes an
association list of string keys to `PyVal` values (mirroring a Python `dict`'s
insertion order and replace-in-place update), the Sentry SDK collaborator is a
record of explicitly passed effect functions returning `Except Unit _` (an
`.error` value stands for a raised exception), and the processor's methods
become pure functions that thread the mutated dict and the list of outbound
submissions (error events and breadcrumbs) explicitly.
-/

set_option maxRecDepth 4000

namespace StructlogSentry

/-- A Python `BaseException` instance: its type's name plus an identity token
distinguishing different instances of the same type. -/
structure ExcObj where
  typeName : String
  ident : Nat
deriving DecidableEq, Repr

/-- The subset of Python values the processor inspects.  `vTuple t` models an
`exc_info` 3-tuple `(type, value, traceback)`: `vTuple (some e)` is the triple
for exception `e`, `vTuple none` is `(None, None, None)`.  `vObj name` models
an opaque object (a logger or a `logging.LogRecord`) carrying an optional
`name` attribute. -/
inductive PyVal where
  | vNone
  | vBool (b : Bool)
  | vInt (n : Int)
  | vStr (s : String)
  | vExc (e : ExcObj)
  | vTuple (t : Option ExcObj)
  | vObj (name : Option String)
deriving DecidableEq, Repr

/-- Python truthiness for the modelled values. -/
def truthy : PyVal → Bool
  | .vNone => false
  | .vBool b => b
  | .vInt n => n != 0
  | .vStr s => s != ""
  | .vExc _ => true
  | .vTuple _ => true
  | .vObj _ => true

/-- Truthiness of a value that may be absent (`None` stands in for absent). -/
def truthyOpt : Option PyVal → Bool
  | none => false
  | some v => truthy v

/-- The `name` attribute of a possibly-absent value: `some (vStr s)` when the
value is an object with a `name` attribute, `none` otherwise (mirrors
`hasattr(x, "name")` followed by `x.name` for the modelled values). -/
def objName : Option PyVal → Option PyVal
  | some (.vObj (some s)) => some (.vStr s)
  | _ => none

/-- Python `hasattr(x, "name")` for the modelled values. -/
def hasObjName (o : Option PyVal) : Bool :=
  (objName o).isSome

/-- A structlog `event_dict`: string keys to values, in insertion order. -/
abbrev EventDict := List (String × PyVal)

/-- Python `d[k]` / `d.get(k)`: the value of the first entry with key `k`. -/
def dget : EventDict → String → Option PyVal
  | [], _ => none
  | (k', v) :: t, k => if k' = k then some v else dget t k

/-- Python `d.get(k, default)`. -/
def dgetD (d : EventDict) (k : String) (dflt : PyVal) : PyVal :=
  (dget d k).getD dflt

/-- Python `k in d`. -/
def dhas (d : EventDict) (k : String) : Bool :=
  (dget d k).isSome

/-- Python `d.pop(k, _)`'s effect on the dict: all entries with key `k` removed
(on a dict, which has unique keys, this is the single entry for `k`). -/
def dpop : EventDict → String → EventDict
  | [], _ => []
  | (k', v) :: t, k => if k' = k then dpop t k else (k', v) :: dpop t k

/-- Replace the value of every entry with key `k` (helper for `dset`). -/
def dreplace : EventDict → String → PyVal → EventDict
  | [], _, _ => []
  | (k', w) :: t, k, v => if k' = k then (k, v) :: dreplace t k v else (k', w) :: dreplace t k v

/-- Python `d[k] = v`: replace in place when the key is present, append otherwise
(Python dicts preserve insertion order on update). -/
def dset (d : EventDict) (k : String) (v : PyVal) : EventDict :=
  if dhas d k then dreplace d k v else d ++ [(k, v)]

/-- Python `d.setdefault(k, v)`. -/
def dsetdefault (d : EventDict) (k : String) (v : PyVal) : EventDict :=
  if dhas d k then d else d ++ [(k, v)]

/-! ### Glob matching (`fnmatch.fnmatch` on a POSIX platform)

`fnmatch` compiles the pattern to the usual shell glob: `*`, `?`, and `[...]`
character classes with `!` negation and `a-b` ranges; an unclosed `[` is a
literal.  On POSIX `os.path.normcase` is the identity, so matching is
case-sensitive.  The matcher is written with explicit fuel so that it is
structurally recursive and evaluates by kernel reduction. -/

/-- One compiled token of a glob pattern. -/
inductive GlobTok where
  | lit (c : Char)
  | anyChar
  | star
  | cls (neg : Bool) (items : List (Char × Char))
deriving DecidableEq, Repr

/-- Read the body of a `[...]` class: returns the accumulated
(lo, hi) ranges and the rest of the pattern, or `none` if the class is
never closed. -/
def readClsItems : List Char → List (Char × Char) → Option (List (Char × Char) × List Char)
  | [], _ => none
  | ']' :: rest, acc => some (acc.reverse, rest)
  | a :: '-' :: b :: rest, acc =>
      if b = ']' then some ((('-', '-') :: (a, a) :: acc).reverse, rest)
      else readClsItems rest ((a, b) :: acc)
  | a :: rest, acc => readClsItems rest ((a, a) :: acc)

/-- Compile a glob pattern to tokens (fuel-indexed; fuel `length + 1` is
always enough because every step consumes at least one character). -/
def parseGlobFuel : Nat → List Char → List GlobTok
  | 0, _ => []
  | _, [] => []
  | n + 1, '*' :: rest => .star :: parseGlobFuel n rest
  | n + 1, '?' :: rest => .anyChar :: parseGlobFuel n rest
  | n + 1, '[' :: rest =>
      let (neg, rest1) : Bool × List Char :=
        match rest with
        | '!' :: r => (true, r)
        | _ => (false, rest)
      let (acc0, rest2) : List (Char × Char) × List Char :=
        match rest1 with
        | ']' :: r => ([((']' : Char), (']' : Char))], r)
        | _ => ([], rest1)
      match readClsItems rest2 acc0 with
      | some (items, rest3) => .cls neg items :: parseGlobFuel n rest3
      | none => .lit '[' :: parseGlobFuel n rest
  | n + 1, c :: rest => .lit c :: parseGlobFuel n rest

/-- Match compiled tokens against a character list (fuel-indexed; every
recursive call shortens tokens-plus-characters, so fuel
`toks.length + chars.length + 1` is always enough). -/
def matchToksFuel : Nat → List GlobTok → List Char → Bool
  | 0, _, _ => false
  | _, [], [] => true
  | _, [], _ :: _ => false
  | n + 1, .star :: ps, [] => matchToksFuel n ps []
  | n + 1, .star :: ps, c :: cs =>
      matchToksFuel n ps (c :: cs) || matchToksFuel n (.star :: ps) cs
  | _, .anyChar :: _, [] => false
  | n + 1, .anyChar :: ps, _ :: cs => matchToksFuel n ps cs
  | _, .lit _ :: _, [] => false
  | n + 1, .lit a :: ps, c :: cs => a == c && matchToksFuel n ps cs
  | _, .cls _ _ :: _, [] => false
  | n + 1, .cls neg items :: ps, c :: cs =>
      (neg != items.any (fun r => decide (r.1 ≤ c) && decide (c ≤ r.2))) &&
        matchToksFuel n ps cs

/-- Python `fnmatch.fnmatch(nm, pat)` on POSIX. -/
def fnmatch (nm pat : String) : Bool :=
  let toks := parseGlobFuel (pat.data.length + 1) pat.data
  matchToksFuel (toks.length + nm.data.length + 1) toks nm.data

/-! ### Severity ranks (`getattr(logging, name.upper())`) -/

/-- ASCII upper-casing of one character (`str.upper` on the names used). -/
def asciiUpper (c : Char) : Char :=
  if c.toNat ≥ 97 && c.toNat ≤ 122 then Char.ofNat (c.toNat - 32) else c

/-- Python `s.upper()` for ASCII strings. -/
def strUpper (s : String) : String :=
  String.mk (s.data.map asciiUpper)

/-- The numeric level constants exposed as attributes of Python's `logging`
module; `getattr` raises (here: `none`) on any other name. -/
def loggingLevelAttr : String → Option Int
  | "NOTSET" => some 0
  | "DEBUG" => some 10
  | "INFO" => some 20
  | "WARNING" => some 30
  | "WARN" => some 30
  | "ERROR" => some 40
  | "CRITICAL" => some 50
  | "FATAL" => some 50
  | _ => none

/-- The lookup `getattr(logging, event_dict["level"].upper())`: a `KeyError` when the
`level` key is missing, an `AttributeError` when the value is not a string or
the upper-cased name is not a `logging` attribute — both uncaught. -/
def levelLookup (d : EventDict) : Except Unit Int :=
  match dget d "level" with
  | some (.vStr s) =>
      match loggingLevelAttr (strUpper s) with
      | some n => .ok n
      | none => .error ()
  | _ => .error ()

/-! ### The Sentry event / breadcrumb payloads and the SDK collaborator -/

/-- The `tag_keys` constructor argument: `None`, the string `"__all__"`, or an
explicit list of keys. -/
inductive TagKeys where
  | noTags
  | allKeys
  | keyList (ks : List String)
deriving DecidableEq, Repr

/-- The Sentry event dict built by `_get_event_and_hint`: only the keys the
processor itself reads or writes are modelled.  `excTypeName` stands for the
`exception` payload produced by `sentry_sdk.utils.event_from_exception`
(whose documented contract is to report the given exception's type name). -/
structure SentryEvent where
  excTypeName : Option String := none
  message : PyVal := PyVal.vNone
  level : PyVal := PyVal.vNone
  logger : Option PyVal := none
  contexts : Option EventDict := none
  tags : Option EventDict := none
deriving DecidableEq, Repr

/-- The breadcrumb dict built by `_get_breadcrumb_and_hint`. -/
structure Breadcrumb where
  btype : String := "log"
  level : PyVal := PyVal.vNone
  category : PyVal := PyVal.vNone
  message : PyVal := PyVal.vNone
  timestamp : PyVal := PyVal.vNone
  data : EventDict := []
deriving DecidableEq, Repr

/-- One outbound call to the Sentry SDK: `Hub.capture_event(event, hint)` or
`Hub.add_breadcrumb(crumb, hint)` (the breadcrumb hint is
`{"log_record": event_dict}`, modelled by the dict itself). -/
inductive Submission where
  | errEvent (ev : SentryEvent) (hint : Nat)
  | crumb (b : Breadcrumb) (hint : EventDict)
deriving DecidableEq, Repr

/-- Is this submission an error-event submission? -/
def Submission.isErr : Submission → Bool
  | .errEvent _ _ => true
  | .crumb _ _ => false

/-- The ambient Sentry SDK collaborator, passed explicitly: the default ignore
set `_IGNORED_LOGGERS`, the currently handled exception (`sys.exc_info()`,
`none` for `(None, None, None)`), and the three effectful facilities, each of
which may raise (`.error ()`). `eventFromException`'s successful result is the
opaque hint; the event skeleton it returns is determined by its contract
(see `SentryEvent.excTypeName`). -/
structure Sdk where
  ignoredLoggers : List String
  sysExcInfo : Option ExcObj
  eventFromException : ExcObj → Except Unit Nat
  captureEvent : SentryEvent → Nat → Except Unit (Option String)
  addBreadcrumb : Breadcrumb → EventDict → Except Unit Unit

/-- The `SentryProcessor` constructor arguments, with the constructor's
defaults (`level=logging.WARNING`, `breadcrumb_level=logging.INFO`);
`ignoredLoggers` is the processor's own `_ignored_loggers` set. -/
structure Config where
  level : Int := 30
  breadcrumbLevel : Int := 20
  active : Bool := true
  asContext : Bool := true
  tagKeys : TagKeys := TagKeys.noTags
  ignoredLoggers : List String := []
  verbose : Bool := false

/-! ### The processor, function by function -/

/-- Function `_figure_out_exc_info`: an exception instance becomes its
`(type, value, traceback)` triple, a tuple passes through, any other truthy
value fetches `sys.exc_info()`, and a falsy value is returned unchanged. -/
def figure_out_exc_info (sdk : Sdk) (v : PyVal) : PyVal :=
  match v with
  | .vExc e => .vTuple (some e)
  | .vTuple t => .vTuple t
  | w => if truthy w then .vTuple sdk.sysExcInfo else w

/-- Method `SentryProcessor._get_logger_name`: the `logger` key if truthy, else the
`name` attribute of the embedded `_record` (when present and truthy as an
object), overridden by the logger object's `name` attribute when the result
so far is falsy. -/
def get_logger_name (logger : Option PyVal) (d : EventDict) : Option PyVal :=
  let record := dget d "_record"
  let l_name := dget d "logger"
  let logger_name : Option PyVal :=
    if truthyOpt l_name then l_name
    else if truthyOpt record && hasObjName record then objName record
    else none
  if !truthyOpt logger_name && truthyOpt logger && hasObjName logger then objName logger
  else logger_name

/-- The first half of `SentryProcessor._get_event_and_hint`: normalize
`exc_info` and derive the event skeleton and hint from
`event_from_exception` when exception info is present (truthy and not the
all-`None` triple); otherwise the empty skeleton and hint. -/
def exc_event_base (sdk : Sdk) (d : EventDict) : Except Unit (SentryEvent × Nat) :=
  match figure_out_exc_info sdk (dgetD d "exc_info" .vNone) with
  | .vTuple (some e) =>
      match sdk.eventFromException e with
      | .error u => .error u
      | .ok hint => .ok ({ excTypeName := some e.typeName }, hint)
  | _ => .ok ({}, 0)

/-- The rest of `SentryProcessor._get_event_and_hint`: on the skeleton from
`exc_event_base`, set `message`, `level`, `logger`, the `structlog` context
(from the pre-mutation snapshot held in `self._original_event_dict`, raising
when that attribute is still `None`), and the tags (from the snapshot for
`"__all__"`, from the live dict for an explicit key list).  `origAttr` is the
current value of `self._original_event_dict`; `d` is the live event dict. -/
def get_event_and_hint (cfg : Config) (sdk : Sdk) (origAttr : Option EventDict)
    (d : EventDict) : Except Unit (SentryEvent × Nat) :=
  match exc_event_base sdk d with
  | .error u => .error u
  | .ok (ev0, hint) =>
      let ev1 : SentryEvent :=
        { ev0 with message := dgetD d "event" .vNone, level := dgetD d "level" .vNone }
      let ev2 : SentryEvent :=
        if dhas d "logger" then { ev1 with logger := dget d "logger" } else ev1
      let ctxStep : Except Unit SentryEvent :=
        if cfg.asContext then
          match origAttr with
          | some o => .ok { ev2 with contexts := some o }
          | none => .error ()
        else .ok ev2
      match ctxStep with
      | .error u => .error u
      | .ok ev3 =>
          match cfg.tagKeys with
          | .allKeys =>
              match origAttr with
              | some o => .ok ({ ev3 with tags := some o }, hint)
              | none => .error ()
          | .keyList ks =>
              .ok ({ ev3 with
                      tags := some (ks.filterMap (fun k => (dget d k).map (fun v => (k, v)))) },
                   hint)
          | .noTags => .ok (ev3, hint)

/-- Method `SentryProcessor._get_breadcrumb_and_hint`: the fixed breadcrumb shape.
`event_dict["event"]` is a plain subscript, so a missing `event` key is a
`KeyError`; the other fields use `.get` and default to `None`.  The `data`
field is the literal empty dict.  The hint is `{"log_record": event_dict}`. -/
def get_breadcrumb_and_hint (d : EventDict) : Except Unit (Breadcrumb × EventDict) :=
  match dget d "event" with
  | none => .error ()
  | some msg =>
      .ok ({ btype := "log", level := dgetD d "level" .vNone,
             category := dgetD d "logger" .vNone, message := msg,
             timestamp := dgetD d "timestamp" .vNone, data := [] }, d)

/-- Method `SentryProcessor._can_record`: resolve the logger name; when it is truthy,
scan `_IGNORED_LOGGERS | self._ignored_loggers` with `fnmatch`; on a match,
set `sentry = "ignored"` when verbose and refuse.  `fnmatch` on a truthy
non-string name is a `TypeError` (uncaught), which can only occur when the
union is non-empty. -/
def can_record (cfg : Config) (sdk : Sdk) (logger : Option PyVal) (d : EventDict) :
    Except Unit (Bool × EventDict) :=
  match get_logger_name logger d with
  | some nv =>
      if truthy nv then
        match nv with
        | .vStr s =>
            if (sdk.ignoredLoggers ++ cfg.ignoredLoggers).any (fun pat => fnmatch s pat) then
              .ok (false, if cfg.verbose then dset d "sentry" (.vStr "ignored") else d)
            else .ok (true, d)
        | _ =>
            if (sdk.ignoredLoggers ++ cfg.ignoredLoggers).isEmpty then .ok (true, d)
            else .error ()
      else .ok (true, d)
  | none => .ok (true, d)

/-- Method `SentryProcessor._handle_event`: inside `capture_internal_exceptions`,
build the event and capture it; on success record a truthy submission id
under `sentry_id` and, when verbose, set `sentry = "sent"`.  Any raise
(building or capturing) is swallowed.  Returns the (possibly mutated) dict
and the outbound submissions actually attempted. -/
def handle_event (cfg : Config) (sdk : Sdk) (origAttr : Option EventDict)
    (d : EventDict) : EventDict × List Submission :=
  match get_event_and_hint cfg sdk origAttr d with
  | .error _ => (d, [])
  | .ok (ev, hint) =>
      match sdk.captureEvent ev hint with
      | .error _ => (d, [Submission.errEvent ev hint])
      | .ok sid =>
          let d1 :=
            match sid with
            | some s => if s != "" then dset d "sentry_id" (.vStr s) else d
            | none => d
          let d2 := if cfg.verbose then dset d1 "sentry" (.vStr "sent") else d1
          (d2, [Submission.errEvent ev hint])

/-- Method `SentryProcessor._handle_breadcrumb`: inside
`capture_internal_exceptions`, build the breadcrumb (a missing `event` key
raises and is swallowed) and submit it; the result of `add_breadcrumb` is
ignored and any raise swallowed.  The event dict is never mutated. -/
def handle_breadcrumb (sdk : Sdk) (d : EventDict) : EventDict × List Submission :=
  match get_breadcrumb_and_hint d with
  | .error _ => (d, [])
  | .ok (b, hint) =>
      match sdk.addBreadcrumb b hint with
      | .error _ => (d, [Submission.crumb b hint])
      | .ok _ => (d, [Submission.crumb b hint])

/-- Method `SentryProcessor.__call__` after `self._original_event_dict` has been
assigned: pop `sentry_skip`, gate on `active`/`sentry_skip`/`_can_record`,
resolve the numeric level (uncaught on failure), fire the error event and the
breadcrumb at their thresholds, and finally `setdefault` the verbose outcome
to `"skipped"`.  `origAttr` is the value of `self._original_event_dict`
during the call. -/
def callFrom (cfg : Config) (sdk : Sdk) (origAttr : Option EventDict)
    (logger : Option PyVal) (d0 : EventDict) :
    Except Unit (EventDict × List Submission) :=
  let skip := dgetD d0 "sentry_skip" (.vBool false)
  let d1 := dpop d0 "sentry_skip"
  let core : Except Unit (EventDict × List Submission) :=
    if cfg.active && !truthy skip then
      match can_record cfg sdk logger d1 with
      | .error u => .error u
      | .ok (false, d2) => .ok (d2, [])
      | .ok (true, d2) =>
          match levelLookup d2 with
          | .error u => .error u
          | .ok lv =>
              let p3 := if cfg.level ≤ lv then handle_event cfg sdk origAttr d2 else (d2, [])
              let p4 := if cfg.breadcrumbLevel ≤ lv then handle_breadcrumb sdk p3.1 else (p3.1, [])
              .ok (p4.1, p3.2 ++ p4.2)
    else .ok (d1, [])
  match core with
  | .error u => .error u
  | .ok (d5, subs) =>
      .ok ((if cfg.verbose then dsetdefault d5 "sentry" (.vStr "skipped") else d5), subs)

/-- Method `SentryProcessor.__call__` including the instance-attribute assignment
`self._original_event_dict = event_dict.copy()`: `priorOrig` is the
attribute's value left by earlier calls (or `None` from the constructor); it
is overwritten with the snapshot of the current record before any use, and
the new attribute value is returned alongside the call's result. -/
def call (cfg : Config) (sdk : Sdk) (priorOrig : Option EventDict)
    (logger : Option PyVal) (d0 : EventDict) :
    Option EventDict × Except Unit (EventDict × List Submission) :=
  (some d0, callFrom cfg sdk (some d0) logger d0)

/-! ### Observation helpers used to state the claims -/

/-- The submissions of a call result (none when the call raised). -/
def subsOfE : Except Unit (EventDict × List Submission) → List Submission
  | .ok (_, s) => s
  | .error _ => []

/-- Did the call return normally? -/
def isOkE : Except Unit (EventDict × List Submission) → Bool
  | .ok _ => true
  | .error _ => false

/-- The exception type names carried by the error submissions, in order. -/
def errTypeNames (l : List Submission) : List (Option String) :=
  l.filterMap (fun s =>
    match s with
    | .errEvent ev _ => some ev.excTypeName
    | .crumb _ _ => none)

/-- The tags carried by the error submissions, in order. -/
def errTags (l : List Submission) : List (Option EventDict) :=
  l.filterMap (fun s =>
    match s with
    | .errEvent ev _ => some ev.tags
    | .crumb _ _ => none)

/-- The number of breadcrumb submissions. -/
def crumbCount (l : List Submission) : Nat :=
  (l.filter (fun s => !s.isErr)).length

/-- Truthiness of a submission id returned by `capture_event`. -/
def truthySid : Option String → Bool
  | none => false
  | some s => s != ""

/-- The tag mapping the code attaches, as a function of the selector, the
pre-mutation snapshot and the live (post-`sentry_skip`-pop) record. -/
def tagsOf (tk : TagKeys) (snapshot live : EventDict) : Option EventDict :=
  match tk with
  | .noTags => none
  | .allKeys => some snapshot
  | .keyList ks => some (ks.filterMap (fun k => (dget live k).map (fun v => (k, v))))

/-- Does a resolved logger name glob-match one of the patterns (a falsy or
absent name never matches)? -/
def ignoredName (pats : List String) : Option PyVal → Bool
  | some (.vStr s) => truthy (.vStr s) && pats.any (fun p => fnmatch s p)
  | _ => false

/-- A resolved logger name on which `_can_record` cannot raise: a string, an
absent name, or a falsy value (a truthy non-string name makes `fnmatch`
raise `TypeError`). -/
def nameOkForMatch : Option PyVal → Bool
  | some (.vStr _) => true
  | some v => !truthy v
  | none => true

/-- Modelled from the spec: the breadcrumb `auxData` is the snapshot with
`event`, `level`, `logger`, `timestamp` and every `breadcrumb_exclusions` key
removed (§4.4) — the behaviour the repository's own tests also expect.  The
module under `src/` does not compute this; it is stated here only to compare
with what the code submits. -/
def breadcrumbAuxDataSpec (snapshot : EventDict) (exclusions : List String) : EventDict :=
  snapshot.filter (fun p =>
    !(["event", "level", "logger", "timestamp"] ++ exclusions).contains p.1)

/-! ### Dictionary lemmas -/

theorem dget_dpop_self (d : EventDict) (k : String) : dget (dpop d k) k = none := by
  induction d with
  | nil => rfl
  | cons p t ih =>
      obtain ⟨k', v⟩ := p
      by_cases h : k' = k <;> simp [dpop, dget, h, ih]

theorem dget_dpop_ne (d : EventDict) {k k' : String} (h : k' ≠ k) :
    dget (dpop d k) k' = dget d k' := by
  induction d with
  | nil => rfl
  | cons p t ih =>
      obtain ⟨k'', v⟩ := p
      by_cases h1 : k'' = k
      · subst h1
        simp [dpop, dget, Ne.symm h, ih]
      · by_cases h2 : k'' = k' <;> simp [dpop, dget, h1, h2, h, ih]

theorem dget_append_of_none {d : EventDict} {k : String} (e : EventDict)
    (h : dget d k = none) : dget (d ++ e) k = dget e k := by
  induction d with
  | nil => rfl
  | cons p t ih =>
      obtain ⟨k', v⟩ := p
      by_cases h1 : k' = k
      · simp [dget, h1] at h
      · simp only [dget, h1, if_neg h1, List.cons_append] at h ⊢
        exact ih h

theorem dget_append_of_some {d : EventDict} {k : String} {v : PyVal} (e : EventDict)
    (h : dget d k = some v) : dget (d ++ e) k = some v := by
  induction d with
  | nil => simp [dget] at h
  | cons p t ih =>
      obtain ⟨k', w⟩ := p
      by_cases h1 : k' = k
      · simp_all [dget, h1]
      · simp only [dget, if_neg h1, List.cons_append] at h ⊢
        exact ih h

theorem dget_dreplace_ne (d : EventDict) {k k' : String} (v : PyVal) (h : k' ≠ k) :
    dget (dreplace d k v) k' = dget d k' := by
  induction d with
  | nil => rfl
  | cons p t ih =>
      obtain ⟨k'', w⟩ := p
      by_cases h1 : k'' = k
      · subst h1
        simp [dreplace, dget, Ne.symm h, ih]
      · by_cases h2 : k'' = k' <;> simp [dreplace, dget, h1, h2, h, ih]

theorem dget_dreplace_self (d : EventDict) {k : String} (v : PyVal)
    (h : dhas d k = true) : dget (dreplace d k v) k = some v := by
  induction d with
  | nil => simp [dhas, dget] at h
  | cons p t ih =>
      obtain ⟨k'', w⟩ := p
      by_cases h1 : k'' = k
      · simp [dreplace, dget, h1]
      · simp only [dhas, dget, if_neg h1] at h
        simp [dreplace, dget, h1, ih h]

theorem dget_dset_self (d : EventDict) (k : String) (v : PyVal) :
    dget (dset d k v) k = some v := by
  unfold dset
  by_cases h : dhas d k
  · simp [h, dget_dreplace_self d v h]
  · have hn : dget d k = none := by
      unfold dhas at h
      cases hd : dget d k with
      | none => rfl
      | some w => simp [hd] at h
    simp [h, dget_append_of_none _ hn, dget]

theorem dget_dset_ne (d : EventDict) {k k' : String} (v : PyVal) (h : k' ≠ k) :
    dget (dset d k v) k' = dget d k' := by
  unfold dset
  by_cases hk : dhas d k
  · simp [hk, dget_dreplace_ne d v h]
  · simp only [hk, if_neg, Bool.false_eq_true, if_false]
    cases hd : dget d k' with
    | none => simp [dget_append_of_none _ hd, dget, Ne.symm h, hd]
    | some w => simp [dget_append_of_some _ hd, hd]

theorem dget_dsetdefault_ne (d : EventDict) {k k' : String} (v : PyVal) (h : k' ≠ k) :
    dget (dsetdefault d k v) k' = dget d k' := by
  unfold dsetdefault
  by_cases hk : dhas d k
  · simp [hk]
  · simp only [hk, Bool.false_eq_true, if_false]
    cases hd : dget d k' with
    | none => simp [dget_append_of_none _ hd, dget, Ne.symm h, hd]
    | some w => simp [dget_append_of_some _ hd, hd]

theorem dget_dsetdefault_self (d : EventDict) (k : String) (v : PyVal) :
    dget (dsetdefault d k v) k = some ((dget d k).getD v) := by
  unfold dsetdefault
  by_cases hk : dhas d k
  · unfold dhas at hk
    cases hd : dget d k with
    | none => simp [hd] at hk
    | some w => simp [dhas, hd, hk]
  · have hn : dget d k = none := by
      unfold dhas at hk
      cases hd : dget d k with
      | none => rfl
      | some w => simp [hd] at hk
    simp [hk, dget_append_of_none _ hn, dget, hn]

/-! ### Characterization lemmas for the processor's pieces -/

theorem exc_event_base_absent {sdk : Sdk} {d : EventDict}
    (h : dget d "exc_info" = none) : exc_event_base sdk d = .ok ({}, 0) := by
  simp [exc_event_base, figure_out_exc_info, dgetD, h, truthy]

theorem exc_event_base_true {sdk : Sdk} {d : EventDict} {e : ExcObj} {h0 : Nat}
    (h : dget d "exc_info" = some (.vBool true)) (he : sdk.sysExcInfo = some e)
    (hf : sdk.eventFromException e = .ok h0) :
    exc_event_base sdk d = .ok ({ excTypeName := some e.typeName }, h0) := by
  simp [exc_event_base, figure_out_exc_info, dgetD, h, truthy, he, hf]

theorem exc_event_base_tags_none {sdk : Sdk} {d : EventDict} {ev0 : SentryEvent}
    {h0 : Nat} (hb : exc_event_base sdk d = .ok (ev0, h0)) : ev0.tags = none := by
  unfold exc_event_base at hb
  split at hb
  · split at hb
    · cases hb
    · cases hb; rfl
  · cases hb; rfl

theorem get_event_and_hint_char {cfg : Config} {sdk : Sdk} {o d : EventDict}
    {ev0 ev : SentryEvent} {h0 hint : Nat}
    (hb : exc_event_base sdk d = .ok (ev0, h0))
    (h : get_event_and_hint cfg sdk (some o) d = .ok (ev, hint)) :
    ev.excTypeName = ev0.excTypeName ∧ ev.message = dgetD d "event" .vNone ∧
      ev.level = dgetD d "level" .vNone ∧ ev.tags = tagsOf cfg.tagKeys o d ∧
      hint = h0 := by
  unfold get_event_and_hint at h
  rw [hb] at h
  by_cases hac : cfg.asContext <;>
    by_cases hlg : dhas d "logger" <;>
      cases htk : cfg.tagKeys <;>
        · simp only [hac, hlg, htk, if_true, if_false, Bool.false_eq_true,
            Except.ok.injEq, Prod.mk.injEq] at h
          obtain ⟨hev, hh⟩ := h
          subst hev
          subst hh
          simp [tagsOf, htk, exc_event_base_tags_none hb]

theorem get_event_and_hint_some_ok {cfg : Config} {sdk : Sdk} {o d : EventDict}
    {ev0 : SentryEvent} {h0 : Nat}
    (hb : exc_event_base sdk d = .ok (ev0, h0)) :
    ∃ ev, get_event_and_hint cfg sdk (some o) d = .ok (ev, h0) := by
  unfold get_event_and_hint
  rw [hb]
  by_cases hac : cfg.asContext <;>
    cases htk : cfg.tagKeys <;>
      simp [hac, htk]

theorem handle_event_subs {cfg : Config} {sdk : Sdk} {o : Option EventDict}
    {d : EventDict} {ev : SentryEvent} {hint : Nat}
    (hbuild : get_event_and_hint cfg sdk o d = .ok (ev, hint)) :
    (handle_event cfg sdk o d).2 = [Submission.errEvent ev hint] := by
  unfold handle_event
  rw [hbuild]
  cases hc : sdk.captureEvent ev hint <;> simp [hc]

theorem handle_event_fail {cfg : Config} {sdk : Sdk} {o : Option EventDict}
    {d : EventDict} {u : Unit}
    (hfail : get_event_and_hint cfg sdk o d = .error u) :
    handle_event cfg sdk o d = (d, []) := by
  unfold handle_event
  rw [hfail]

theorem handle_event_fst_dget (cfg : Config) (sdk : Sdk) (o : Option EventDict)
    (d : EventDict) (k : String) (h1 : k ≠ "sentry_id") (h2 : k ≠ "sentry") :
    dget (handle_event cfg sdk o d).1 k = dget d k := by
  unfold handle_event
  cases hb : get_event_and_hint cfg sdk o d with
  | error u => rfl
  | ok p =>
      obtain ⟨ev, hint⟩ := p
      cases hc : sdk.captureEvent ev hint with
      | error u => simp [hc]
      | ok sid =>
          cases sid with
          | none => by_cases hv : cfg.verbose <;> simp [hc, hv, dget_dset_ne _ _ h2]
          | some s =>
              by_cases hs : s = "" <;> by_cases hv : cfg.verbose <;>
                simp [hc, hs, hv, bne_iff_ne, dget_dset_ne _ _ h1, dget_dset_ne _ _ h2]

theorem handle_event_sentry_or (cfg : Config) (sdk : Sdk) (o : Option EventDict)
    (d : EventDict) :
    dget (handle_event cfg sdk o d).1 "sentry" = dget d "sentry" ∨
      (cfg.verbose = true ∧
        dget (handle_event cfg sdk o d).1 "sentry" = some (.vStr "sent")) := by
  unfold handle_event
  cases hb : get_event_and_hint cfg sdk o d with
  | error u => exact Or.inl rfl
  | ok p =>
      obtain ⟨ev, hint⟩ := p
      cases hc : sdk.captureEvent ev hint with
      | error u => simp [hc]
      | ok sid =>
          by_cases hv : cfg.verbose
          · refine Or.inr ⟨hv, ?_⟩
            cases sid with
            | none => simp [hc, hv, dget_dset_self]
            | some s => by_cases hs : s = "" <;> simp [hc, hs, hv, dget_dset_self]
          · refine Or.inl ?_
            cases sid with
            | none => simp [hc, hv]
            | some s =>
                by_cases hs : s = "" <;>
                  simp [hc, hs, hv,
                    dget_dset_ne _ _ (by decide : ("sentry" : String) ≠ "sentry_id")]

theorem handle_event_sid_falsy {cfg : Config} {sdk : Sdk} {o : Option EventDict}
    {d : EventDict} {ev : SentryEvent} {hint : Nat} {sid : Option String}
    (hbuild : get_event_and_hint cfg sdk o d = .ok (ev, hint))
    (hcap : sdk.captureEvent ev hint = .ok sid)
    (hsid : truthySid sid = false) :
    (handle_event cfg sdk o d).1 =
      (if cfg.verbose then dset d "sentry" (.vStr "sent") else d) := by
  unfold handle_event
  rw [hbuild]
  cases sid with
  | none => simp [hcap]
  | some s =>
      simp only [truthySid] at hsid
      simp [hcap, hsid]

theorem handle_breadcrumb_fst (sdk : Sdk) (d : EventDict) :
    (handle_breadcrumb sdk d).1 = d := by
  unfold handle_breadcrumb
  cases hb : get_breadcrumb_and_hint d with
  | error u => rfl
  | ok p =>
      obtain ⟨b, hint⟩ := p
      cases hc : sdk.addBreadcrumb b hint <;> simp [hc]

theorem handle_breadcrumb_no_err (sdk : Sdk) (d : EventDict) :
    (handle_breadcrumb sdk d).2.filter Submission.isErr = [] := by
  unfold handle_breadcrumb
  cases hb : get_breadcrumb_and_hint d with
  | error u => rfl
  | ok p =>
      obtain ⟨b, hint⟩ := p
      cases hc : sdk.addBreadcrumb b hint <;> simp [hc, Submission.isErr]

theorem handle_breadcrumb_count (sdk : Sdk) (d : EventDict)
    (hev : dhas d "event" = true) :
    crumbCount (handle_breadcrumb sdk d).2 = 1 := by
  unfold handle_breadcrumb get_breadcrumb_and_hint
  unfold dhas at hev
  cases hd : dget d "event" with
  | none => simp [hd] at hev
  | some m =>
      cases hc : sdk.addBreadcrumb
          { btype := "log", level := dgetD d "level" PyVal.vNone,
            category := dgetD d "logger" PyVal.vNone, message := m,
            timestamp := dgetD d "timestamp" PyVal.vNone, data := [] } d <;>
        simp [hc, crumbCount, Submission.isErr]

theorem can_record_true_eq {cfg : Config} {sdk : Sdk} {lg : Option PyVal}
    {d d2 : EventDict} (h : can_record cfg sdk lg d = .ok (true, d2)) : d2 = d := by
  unfold can_record at h
  cases hn : get_logger_name lg d with
  | none => rw [hn] at h; cases h; rfl
  | some nv =>
      rw [hn] at h
      by_cases ht : truthy nv
      · cases nv <;> simp [ht] at h <;>
          first
          | (split at h <;> simp_all)
          | rfl
      · simp [ht] at h
        exact h.symm

theorem can_record_frame {cfg : Config} {sdk : Sdk} {lg : Option PyVal}
    {d d2 : EventDict} {b : Bool} (h : can_record cfg sdk lg d = .ok (b, d2)) (k : String) :
    (k ≠ "sentry" → dget d2 k = dget d k) ∧
    (dget d2 "sentry" = dget d "sentry" ∨
      (cfg.verbose = true ∧ dget d2 "sentry" = some (.vStr "ignored"))) := by
  unfold can_record at h
  cases hn : get_logger_name lg d with
  | none =>
      rw [hn] at h
      cases h
      exact ⟨fun _ => rfl, Or.inl rfl⟩
  | some nv =>
      rw [hn] at h
      by_cases ht : truthy nv
      · cases nv with
        | vStr s =>
            simp only [ht, if_true] at h
            by_cases hm : (sdk.ignoredLoggers ++ cfg.ignoredLoggers).any
                (fun pat => fnmatch s pat)
            · simp only [hm, if_true] at h
              simp only [Except.ok.injEq, Prod.mk.injEq] at h
              obtain ⟨hb, hd⟩ := h
              subst hd
              by_cases hv : cfg.verbose
              · exact ⟨fun hk => by simp [hv, dget_dset_ne _ _ hk],
                  Or.inr ⟨hv, by simp [hv, dget_dset_self]⟩⟩
              · simp [hv]
            · simp only [hm, Bool.false_eq_true, if_false] at h
              simp only [Except.ok.injEq, Prod.mk.injEq] at h
              obtain ⟨hb, hd⟩ := h
              subst hd
              simp
        | vNone => simp [truthy] at ht
        | vBool bb =>
            simp only [ht, if_true] at h
            split at h
            · cases h; exact ⟨fun _ => rfl, Or.inl rfl⟩
            · cases h
        | vInt n =>
            simp only [ht, if_true] at h
            split at h
            · cases h; exact ⟨fun _ => rfl, Or.inl rfl⟩
            · cases h
        | vExc e =>
            simp only [ht, if_true] at h
            split at h
            · cases h; exact ⟨fun _ => rfl, Or.inl rfl⟩
            · cases h
        | vTuple t =>
            simp only [ht, if_true] at h
            split at h
            · cases h; exact ⟨fun _ => rfl, Or.inl rfl⟩
            · cases h
        | vObj nm =>
            simp only [ht, if_true] at h
            split at h
            · cases h; exact ⟨fun _ => rfl, Or.inl rfl⟩
            · cases h
      · simp only [ht, Bool.false_eq_true, if_false] at h
        cases h
        exact ⟨fun _ => rfl, Or.inl rfl⟩

theorem can_record_of_ignored {cfg : Config} {sdk : Sdk} {lg : Option PyVal} {d : EventDict}
    (hig : ignoredName (sdk.ignoredLoggers ++ cfg.ignoredLoggers)
        (get_logger_name lg d) = true) :
    can_record cfg sdk lg d =
      .ok (false, if cfg.verbose then dset d "sentry" (.vStr "ignored") else d) := by
  unfold can_record
  cases hn : get_logger_name lg d with
  | none => rw [hn] at hig; simp [ignoredName] at hig
  | some nv =>
      rw [hn] at hig
      cases nv with
      | vStr s =>
          simp only [ignoredName, Bool.and_eq_true] at hig
          obtain ⟨hs, hm⟩ := hig
          have hs' : ¬s = "" := by simpa [truthy] using hs
          simp [truthy, hs', hm]
      | vNone => simp [ignoredName] at hig
      | vBool bb => simp [ignoredName] at hig
      | vInt n => simp [ignoredName] at hig
      | vExc e => simp [ignoredName] at hig
      | vTuple t => simp [ignoredName] at hig
      | vObj nm => simp [ignoredName] at hig

theorem can_record_of_not_ignored {cfg : Config} {sdk : Sdk} {lg : Option PyVal}
    {d : EventDict}
    (hnm : nameOkForMatch (get_logger_name lg d) = true)
    (hig : ignoredName (sdk.ignoredLoggers ++ cfg.ignoredLoggers)
        (get_logger_name lg d) = false) :
    can_record cfg sdk lg d = .ok (true, d) := by
  unfold can_record
  cases hn : get_logger_name lg d with
  | none => rfl
  | some nv =>
      rw [hn] at hnm hig
      cases nv with
      | vStr s =>
          by_cases ht : truthy (.vStr s)
          · have hm : (sdk.ignoredLoggers ++ cfg.ignoredLoggers).any
                (fun pat => fnmatch s pat) = false := by
              simp only [ignoredName, ht, Bool.true_and] at hig
              exact hig
            simp [ht, hm]
          · simp [ht]
      | vNone => simp [truthy]
      | vBool bb =>
          simp only [nameOkForMatch, Bool.not_eq_true'] at hnm
          simp only [truthy] at hnm
          simp [truthy, hnm]
      | vInt n =>
          simp only [nameOkForMatch, Bool.not_eq_true'] at hnm
          simp only [truthy] at hnm
          simp [truthy, hnm]
      | vExc e => simp [nameOkForMatch, truthy] at hnm
      | vTuple t => simp [nameOkForMatch, truthy] at hnm
      | vObj nm => simp [nameOkForMatch, truthy] at hnm

/-! ### Path lemmas for `callFrom` -/

theorem callFrom_submit {cfg : Config} {sdk : Sdk} {lg : Option PyVal}
    {d0 : EventDict} {r : Int}
    (hact : cfg.active = true)
    (hskip : truthy (dgetD d0 "sentry_skip" (.vBool false)) = false)
    (hcr : can_record cfg sdk lg (dpop d0 "sentry_skip") = .ok (true, dpop d0 "sentry_skip"))
    (hlv : levelLookup (dpop d0 "sentry_skip") = .ok r) :
    callFrom cfg sdk (some d0) lg d0 =
      (let d1 := dpop d0 "sentry_skip"
       let p3 := if cfg.level ≤ r then handle_event cfg sdk (some d0) d1 else (d1, [])
       let p4 := if cfg.breadcrumbLevel ≤ r then handle_breadcrumb sdk p3.1 else (p3.1, [])
       .ok ((if cfg.verbose then dsetdefault p4.1 "sentry" (.vStr "skipped") else p4.1),
            p3.2 ++ p4.2)) := by
  unfold callFrom
  simp only [hact, hskip, hcr, hlv, Bool.not_false, Bool.and_self, if_true]

theorem callFrom_noActive {cfg : Config} {sdk : Sdk} {o : Option EventDict}
    {lg : Option PyVal} {d0 : EventDict}
    (h : cfg.active = false ∨ truthy (dgetD d0 "sentry_skip" (.vBool false)) = true) :
    callFrom cfg sdk o lg d0 =
      .ok ((if cfg.verbose then
              dsetdefault (dpop d0 "sentry_skip") "sentry" (.vStr "skipped")
            else dpop d0 "sentry_skip"), []) := by
  unfold callFrom
  rcases h with h | h <;> simp [h]

theorem callFrom_ignored {cfg : Config} {sdk : Sdk} {lg : Option PyVal}
    {d0 d2 : EventDict}
    (hact : cfg.active = true)
    (hskip : truthy (dgetD d0 "sentry_skip" (.vBool false)) = false)
    (hcr : can_record cfg sdk lg (dpop d0 "sentry_skip") = .ok (false, d2)) :
    callFrom cfg sdk (some d0) lg d0 =
      .ok ((if cfg.verbose then dsetdefault d2 "sentry" (.vStr "skipped") else d2), []) := by
  unfold callFrom
  simp only [hact, hskip, hcr, Bool.not_false, Bool.and_self, if_true]

theorem get_event_and_hint_base_inv {cfg : Config} {sdk : Sdk} {o d : EventDict}
    {ev : SentryEvent} {hint : Nat}
    (h : get_event_and_hint cfg sdk (some o) d = .ok (ev, hint)) :
    ∃ ev0, exc_event_base sdk d = .ok (ev0, hint) := by
  unfold get_event_and_hint at h
  cases hb : exc_event_base sdk d with
  | error u => rw [hb] at h; cases h
  | ok p =>
      obtain ⟨ev0, h0⟩ := p
      rw [hb] at h
      refine ⟨ev0, ?_⟩
      by_cases hac : cfg.asContext <;>
        by_cases hlg : dhas d "logger" <;>
          cases htk : cfg.tagKeys <;>
            · simp only [hac, hlg, htk, if_true, if_false, Bool.false_eq_true,
                Except.ok.injEq, Prod.mk.injEq] at h
              rw [h.2]

theorem handle_event_sentry_id_or (cfg : Config) (sdk : Sdk) (o : Option EventDict)
    (d : EventDict) :
    dget (handle_event cfg sdk o d).1 "sentry_id" = dget d "sentry_id" ∨
      dget (handle_event cfg sdk o d).1 "sentry_id" ≠ none := by
  unfold handle_event
  cases hb : get_event_and_hint cfg sdk o d with
  | error u => exact Or.inl rfl
  | ok p =>
      obtain ⟨ev, hint⟩ := p
      cases hc : sdk.captureEvent ev hint with
      | error u => simp [hc]
      | ok sid =>
          cases sid with
          | none =>
              refine Or.inl ?_
              by_cases hv : cfg.verbose <;>
                simp [hc, hv,
                  dget_dset_ne _ _ (by decide : ("sentry_id" : String) ≠ "sentry")]
          | some s =>
              by_cases hs : s = ""
              · refine Or.inl ?_
                by_cases hv : cfg.verbose <;>
                  simp [hc, hs, hv,
                    dget_dset_ne _ _ (by decide : ("sentry_id" : String) ≠ "sentry")]
              · refine Or.inr ?_
                by_cases hv : cfg.verbose <;>
                  simp [hc, hs, hv, bne_iff_ne, dget_dset_self,
                    dget_dset_ne _ _ (by decide : ("sentry_id" : String) ≠ "sentry")]

theorem handle_event_no_crumbs (cfg : Config) (sdk : Sdk) (o : Option EventDict)
    (d : EventDict) :
    ((handle_event cfg sdk o d).2.filter (fun s => !s.isErr)) = [] := by
  unfold handle_event
  cases hb : get_event_and_hint cfg sdk o d with
  | error u => rfl
  | ok p =>
      obtain ⟨ev, hint⟩ := p
      cases hc : sdk.captureEvent ev hint <;> simp [hc, Submission.isErr]

theorem errTypeNames_handle_breadcrumb (sdk : Sdk) (d : EventDict) :
    errTypeNames (handle_breadcrumb sdk d).2 = [] := by
  unfold handle_breadcrumb
  cases hb : get_breadcrumb_and_hint d with
  | error u => rfl
  | ok p =>
      obtain ⟨b, hint⟩ := p
      cases hc : sdk.addBreadcrumb b hint <;> simp [hc, errTypeNames]

theorem callFrom_canrecord_error {cfg : Config} {sdk : Sdk} {lg : Option PyVal}
    {d0 : EventDict} {u : Unit}
    (hact : cfg.active = true)
    (hskip : truthy (dgetD d0 "sentry_skip" (.vBool false)) = false)
    (hcr : can_record cfg sdk lg (dpop d0 "sentry_skip") = .error u) :
    callFrom cfg sdk (some d0) lg d0 = .error u := by
  unfold callFrom
  simp only [hact, hskip, hcr, Bool.not_false, Bool.and_self, if_true]

theorem callFrom_level_error {cfg : Config} {sdk : Sdk} {lg : Option PyVal}
    {d0 : EventDict} {u : Unit}
    (hact : cfg.active = true)
    (hskip : truthy (dgetD d0 "sentry_skip" (.vBool false)) = false)
    (hcr : can_record cfg sdk lg (dpop d0 "sentry_skip") = .ok (true, dpop d0 "sentry_skip"))
    (hlv : levelLookup (dpop d0 "sentry_skip") = .error u) :
    callFrom cfg sdk (some d0) lg d0 = .error u := by
  unfold callFrom
  simp only [hact, hskip, hcr, hlv, Bool.not_false, Bool.and_self, if_true]

/-- On the full submission path (active, not skipped, recordable, level at or
above the error threshold, event built successfully), the submissions are the
one error event followed by only-breadcrumb attempts, and the returned dict
agrees with the post-pop record away from `sentry` and `sentry_id`. -/
theorem callFrom_submit_parts {cfg : Config} {sdk : Sdk} {lg : Option PyVal}
    {d0 : EventDict} {r : Int} {ev : SentryEvent} {hint : Nat}
    {d' : EventDict} {subs : List Submission}
    (hact : cfg.active = true)
    (hskip : truthy (dgetD d0 "sentry_skip" (.vBool false)) = false)
    (hcr : can_record cfg sdk lg (dpop d0 "sentry_skip") = .ok (true, dpop d0 "sentry_skip"))
    (hlv : levelLookup (dpop d0 "sentry_skip") = .ok r)
    (hr : cfg.level ≤ r)
    (hbuild : get_event_and_hint cfg sdk (some d0) (dpop d0 "sentry_skip") = .ok (ev, hint))
    (hcall : callFrom cfg sdk (some d0) lg d0 = .ok (d', subs)) :
    ∃ crumbs, subs = Submission.errEvent ev hint :: crumbs ∧
      errTypeNames crumbs = [] ∧ crumbs.filter Submission.isErr = [] ∧
      (∀ k, k ≠ "sentry" → k ≠ "sentry_id" →
        dget d' k = dget (dpop d0 "sentry_skip") k) := by
  rw [callFrom_submit hact hskip hcr hlv] at hcall
  simp only [if_pos hr] at hcall
  by_cases hbc : cfg.breadcrumbLevel ≤ r
  · simp only [if_pos hbc, Except.ok.injEq, Prod.mk.injEq] at hcall
    obtain ⟨hd, hs⟩ := hcall
    refine ⟨(handle_breadcrumb sdk
        (handle_event cfg sdk (some d0) (dpop d0 "sentry_skip")).1).2, ?_, ?_, ?_, ?_⟩
    · rw [← hs, handle_event_subs hbuild]
      rfl
    · exact errTypeNames_handle_breadcrumb _ _
    · exact handle_breadcrumb_no_err _ _
    · intro k hk1 hk2
      subst hd
      by_cases hv : cfg.verbose <;>
        simp [hv, dget_dsetdefault_ne _ _ hk1, handle_breadcrumb_fst,
          handle_event_fst_dget _ _ _ _ _ hk2 hk1]
  · simp only [if_neg hbc, Except.ok.injEq, Prod.mk.injEq] at hcall
    obtain ⟨hd, hs⟩ := hcall
    refine ⟨[], ?_, rfl, rfl, ?_⟩
    · rw [← hs, handle_event_subs hbuild]
      rfl
    · intro k hk1 hk2
      subst hd
      by_cases hv : cfg.verbose <;>
        simp [hv, dget_dsetdefault_ne _ _ hk1,
          handle_event_fst_dget _ _ _ _ _ hk2 hk1]

/-! ### Concrete environments and records used as counterexamples and witnesses -/

/-- An SDK environment whose facilities all succeed, with a
`ZeroDivisionError` currently being handled and no default ignore patterns. -/
def sdkOk : Sdk :=
  { ignoredLoggers := []
    sysExcInfo := some ⟨"ZeroDivisionError", 7⟩
    eventFromException := fun e => .ok (100 + e.ident)
    captureEvent := fun _ _ => .ok (some "id1")
    addBreadcrumb := fun _ _ => .ok () }

/-- An SDK environment whose three effectful facilities all raise. -/
def sdkFail : Sdk :=
  { ignoredLoggers := []
    sysExcInfo := none
    eventFromException := fun _ => .error ()
    captureEvent := fun _ _ => .error ()
    addBreadcrumb := fun _ _ => .error () }

/-- Like `sdkOk` but `capture_event` returns `None` (no submission id). -/
def sdkNoId : Sdk :=
  { sdkOk with captureEvent := fun _ _ => .ok none }

/-- An info-level record with an extra `foo` key (the repository's own
breadcrumb test input). -/
def dC1 : EventDict :=
  [("level", .vStr "info"), ("event", .vStr "Info message"),
   ("logger", .vStr "EventLogger"), ("timestamp", .vStr "2024-01-01T00:00:00Z"),
   ("foo", .vStr "bar")]

/-- A minimal error-level record without `exc_info`. -/
def dC2 : EventDict := [("level", .vStr "error"), ("event", .vStr "m")]

/-- An error-level record with `exc_info = True`. -/
def dC2t : EventDict :=
  [("level", .vStr "error"), ("event", .vStr "m"), ("exc_info", .vBool true)]

/-! ### Claim C1 -/

/-- Claim C1 (code bug).  The spec (§4.4) — and the repository's own test
`test_breadcrumbs_with_additional_data` — require the submitted breadcrumb's
`data` to be the pre-mutation snapshot minus the keys `event`, `level`,
`logger`, `timestamp` and the configured exclusions, so here
`{"foo": "bar"}`.  The module under `src/` hard-codes `data = {}` in
`_get_breadcrumb_and_hint` (and accepts no `breadcrumb_exclusions`
configuration at all): on the test's own input the submitted `data` is empty
while the specified aux data is `{"foo": "bar"}`. -/
theorem c1_breadcrumb_data_is_empty :
    callFrom {} sdkOk (some dC1) none dC1 =
      .ok (dC1,
        [Submission.crumb
          { btype := "log", level := .vStr "info", category := .vStr "EventLogger",
            message := .vStr "Info message",
            timestamp := .vStr "2024-01-01T00:00:00Z", data := [] } dC1]) ∧
    breadcrumbAuxDataSpec dC1 [] = [("foo", PyVal.vStr "bar")] ∧
    ([] : EventDict) ≠ breadcrumbAuxDataSpec dC1 [] :=
  ⟨rfl, rfl, by decide⟩

/-! ### Claim C2 -/

/-- Claim C2 (counterexample).  While a `ZeroDivisionError` is being handled
(`sys.exc_info()` is non-null in `sdkOk`), a record whose `exc_info` key is
absent is submitted at error level with NO exception information:
`_figure_out_exc_info(None)` returns `None` without consulting
`sys.exc_info()`, so the claim's "absent" case is false on this code (the
repository's own `test_sentry_log_failure` expects exactly this). -/
theorem c2_absent_exc_info_not_fetched :
    sdkOk.sysExcInfo = some ⟨"ZeroDivisionError", 7⟩ ∧
    dget dC2 "exc_info" = none ∧
    errTypeNames (subsOfE (callFrom {} sdkOk (some dC2) none dC2)) = [none] ∧
    ([none] : List (Option String)) ≠ [some "ZeroDivisionError"] :=
  ⟨rfl, rfl, rfl, by decide⟩

/-- Claim C2 (amended).  On the submission path, when the record's `exc_info`
is the boolean `true` (and the SDK's exception formatter succeeds) the
submitted error payload's exception type name equals the currently handled
exception's type name; when `exc_info` is absent, the payload carries no
exception information; in both cases the returned record's `exc_info` key is
exactly the one passed in. -/
theorem c2_exc_info_amended
    (cfg : Config) (sdk : Sdk) (lg : Option PyVal) (d0 : EventDict) (r : Int)
    (e : ExcObj) (h0 : Nat) (d' : EventDict) (subs : List Submission)
    (hact : cfg.active = true)
    (hskip : truthy (dgetD d0 "sentry_skip" (.vBool false)) = false)
    (hcr : can_record cfg sdk lg (dpop d0 "sentry_skip") = .ok (true, dpop d0 "sentry_skip"))
    (hlv : levelLookup (dpop d0 "sentry_skip") = .ok r)
    (hr : cfg.level ≤ r)
    (hexc : sdk.sysExcInfo = some e)
    (hei : (dget d0 "exc_info" = some (.vBool true) ∧ sdk.eventFromException e = .ok h0) ∨
      dget d0 "exc_info" = none)
    (hcall : callFrom cfg sdk (some d0) lg d0 = .ok (d', subs)) :
    errTypeNames subs = [if dget d0 "exc_info" = none then none else some e.typeName] ∧
    dget d' "exc_info" = dget d0 "exc_info" := by
  have hx : dget (dpop d0 "sentry_skip") "exc_info" = dget d0 "exc_info" :=
    dget_dpop_ne _ (by decide)
  rcases hei with ⟨hei1, hef⟩ | hei2
  · have hb : exc_event_base sdk (dpop d0 "sentry_skip") =
        .ok ({ excTypeName := some e.typeName }, h0) :=
      exc_event_base_true (hx.trans hei1) hexc hef
    obtain ⟨ev, hghe⟩ := @get_event_and_hint_some_ok cfg sdk d0 _ _ _ hb
    obtain ⟨crumbs, hsubs, hcr0, _, hdget⟩ :=
      callFrom_submit_parts hact hskip hcr hlv hr hghe hcall
    obtain ⟨hty, _, _, _, _⟩ := get_event_and_hint_char hb hghe
    constructor
    · rw [hsubs]
      simp only [errTypeNames] at hcr0 ⊢
      simp only [List.filterMap_cons, hcr0]
      rw [hei1]
      simp [hty]
    · rw [hdget "exc_info" (by decide) (by decide), hx]
  · have hb : exc_event_base sdk (dpop d0 "sentry_skip") = .ok ({}, 0) :=
      exc_event_base_absent (hx.trans hei2)
    obtain ⟨ev, hghe⟩ := @get_event_and_hint_some_ok cfg sdk d0 _ _ _ hb
    obtain ⟨crumbs, hsubs, hcr0, _, hdget⟩ :=
      callFrom_submit_parts hact hskip hcr hlv hr hghe hcall
    obtain ⟨hty, _, _, _, _⟩ := get_event_and_hint_char hb hghe
    constructor
    · rw [hsubs]
      simp only [errTypeNames] at hcr0 ⊢
      simp only [List.filterMap_cons, hcr0]
      rw [hei2]
      simp [hty]
    · rw [hdget "exc_info" (by decide) (by decide), hx]

/-- Witness for `c2_exc_info_amended` at a concrete record with
`exc_info = True` while a `ZeroDivisionError` is being handled. -/
theorem c2_exc_info_amended_witness :
    errTypeNames
        [Submission.errEvent
          { excTypeName := some "ZeroDivisionError", message := .vStr "m",
            level := .vStr "error", logger := none, contexts := some dC2t,
            tags := none } 107,
         Submission.crumb
          { btype := "log", level := .vStr "error", category := .vNone,
            message := .vStr "m", timestamp := .vNone, data := [] }
          [("level", .vStr "error"), ("event", .vStr "m"),
           ("exc_info", .vBool true), ("sentry_id", .vStr "id1")]] =
      [if dget dC2t "exc_info" = none then none else some "ZeroDivisionError"] ∧
    dget [("level", PyVal.vStr "error"), ("event", PyVal.vStr "m"),
        ("exc_info", PyVal.vBool true), ("sentry_id", PyVal.vStr "id1")] "exc_info" =
      dget dC2t "exc_info" :=
  c2_exc_info_amended {} sdkOk none dC2t 40 ⟨"ZeroDivisionError", 7⟩ 107 _ _
    rfl rfl rfl rfl (by decide) rfl (Or.inl ⟨rfl, rfl⟩) rfl

/-! ### Claim C3 -/

/-- Claim C3.  On the processing path (active, not skipped, recordable,
resolvable level), the call returns normally for EVERY behaviour of the SDK's
effectful facilities — any raise inside `_handle_event` or
`_handle_breadcrumb` is swallowed by `capture_internal_exceptions` — and when
the level is at or above the breadcrumb threshold and the record has an
`event` key, exactly one breadcrumb submission is still attempted, whatever
happened to the error submission. -/
theorem c3_failures_swallowed
    (cfg : Config) (sdk : Sdk) (lg : Option PyVal) (d0 : EventDict) (r : Int)
    (hact : cfg.active = true)
    (hskip : truthy (dgetD d0 "sentry_skip" (.vBool false)) = false)
    (hcr : can_record cfg sdk lg (dpop d0 "sentry_skip") = .ok (true, dpop d0 "sentry_skip"))
    (hlv : levelLookup (dpop d0 "sentry_skip") = .ok r) :
    isOkE (callFrom cfg sdk (some d0) lg d0) = true ∧
    (cfg.breadcrumbLevel ≤ r → dhas (dpop d0 "sentry_skip") "event" = true →
      crumbCount (subsOfE (callFrom cfg sdk (some d0) lg d0)) = 1) := by
  rw [callFrom_submit hact hskip hcr hlv]
  constructor
  · rfl
  · intro hbc hev
    simp only [if_pos hbc, subsOfE]
    by_cases hl : cfg.level ≤ r
    · simp only [if_pos hl]
      have h1 : dhas (handle_event cfg sdk (some d0) (dpop d0 "sentry_skip")).1
          "event" = true := by
        unfold dhas
        rw [handle_event_fst_dget _ _ _ _ _ (by decide) (by decide)]
        exact hev
      have h2 := handle_breadcrumb_count sdk
        (handle_event cfg sdk (some d0) (dpop d0 "sentry_skip")).1 h1
      unfold crumbCount at h2 ⊢
      rw [List.filter_append, handle_event_no_crumbs, List.nil_append]
      exact h2
    · simp only [if_neg hl]
      have h2 := handle_breadcrumb_count sdk (dpop d0 "sentry_skip") hev
      unfold crumbCount at h2 ⊢
      simpa using h2

/-- Witness for `c3_failures_swallowed`: with an SDK whose exception
formatter, `capture_event` and `add_breadcrumb` all raise, the call still
returns normally and still attempts exactly one breadcrumb. -/
theorem c3_failures_swallowed_witness :
    isOkE (callFrom {} sdkFail (some dC2) none dC2) = true ∧
    (({} : Config).breadcrumbLevel ≤ 40 → dhas (dpop dC2 "sentry_skip") "event" = true →
      crumbCount (subsOfE (callFrom {} sdkFail (some dC2) none dC2)) = 1) :=
  c3_failures_swallowed {} sdkFail none dC2 40 rfl rfl rfl rfl

/-! ### Claim C4 -/

/-- Claim C4.  On the submission path (active, not skipped, recordable, level
at or above `error_threshold`, payload built), the call makes exactly one
error submission, whose `message` equals the record's `event` value and whose
`level` equals the record's `level` value. -/
theorem c4_one_error_submission
    (cfg : Config) (sdk : Sdk) (lg : Option PyVal) (d0 : EventDict) (r : Int)
    (ev : SentryEvent) (hint : Nat) (d' : EventDict) (subs : List Submission)
    (hact : cfg.active = true)
    (hskip : truthy (dgetD d0 "sentry_skip" (.vBool false)) = false)
    (hcr : can_record cfg sdk lg (dpop d0 "sentry_skip") = .ok (true, dpop d0 "sentry_skip"))
    (hlv : levelLookup (dpop d0 "sentry_skip") = .ok r)
    (hr : cfg.level ≤ r)
    (hbuild : get_event_and_hint cfg sdk (some d0) (dpop d0 "sentry_skip") = .ok (ev, hint))
    (hcall : callFrom cfg sdk (some d0) lg d0 = .ok (d', subs)) :
    subs.filter Submission.isErr = [Submission.errEvent ev hint] ∧
    ev.message = dgetD d0 "event" .vNone ∧
    ev.level = dgetD d0 "level" .vNone := by
  obtain ⟨crumbs, hsubs, _, hfil, _⟩ :=
    callFrom_submit_parts hact hskip hcr hlv hr hbuild hcall
  obtain ⟨ev0, hb⟩ := get_event_and_hint_base_inv hbuild
  obtain ⟨_, hmsg, hlvl, _, _⟩ := get_event_and_hint_char hb hbuild
  refine ⟨?_, ?_, ?_⟩
  · rw [hsubs, List.filter_cons]
    simp [Submission.isErr, hfil]
  · rw [hmsg]
    simp [dgetD, dget_dpop_ne d0 (show ("event" : String) ≠ "sentry_skip" by decide)]
  · rw [hlvl]
    simp [dgetD, dget_dpop_ne d0 (show ("level" : String) ≠ "sentry_skip" by decide)]

/-- Witness for `c4_one_error_submission` at a concrete error-level record. -/
theorem c4_one_error_submission_witness :
    [Submission.errEvent
        { excTypeName := none, message := .vStr "m", level := .vStr "error",
          logger := none, contexts := some dC2, tags := none } 0,
      Submission.crumb
        { btype := "log", level := .vStr "error", category := .vNone,
          message := .vStr "m", timestamp := .vNone, data := [] }
        [("level", .vStr "error"), ("event", .vStr "m"),
         ("sentry_id", .vStr "id1")]].filter Submission.isErr =
      [Submission.errEvent
        { excTypeName := none, message := .vStr "m", level := .vStr "error",
          logger := none, contexts := some dC2, tags := none } 0] ∧
    ({ excTypeName := none, message := .vStr "m", level := .vStr "error",
        logger := none, contexts := some dC2, tags := none } : SentryEvent).message =
      dgetD dC2 "event" .vNone ∧
    ({ excTypeName := none, message := .vStr "m", level := .vStr "error",
        logger := none, contexts := some dC2, tags := none } : SentryEvent).level =
      dgetD dC2 "level" .vNone :=
  c4_one_error_submission {} sdkOk none dC2 40
    { excTypeName := none, message := .vStr "m", level := .vStr "error",
      logger := none, contexts := some dC2, tags := none } 0 _ _
    rfl rfl rfl rfl (by decide) rfl rfl

/-! ### Claim C5 -/

/-- The processor configuration of the first C5 counterexample: verbose, with
an ignore pattern matching the record's logger. -/
def cfgC5a : Config := { verbose := true, ignoredLoggers := ["test.blacklisted"] }

/-- A debug-level record (below both default thresholds) from an ignored
logger. -/
def dC5a : EventDict :=
  [("level", .vStr "debug"), ("event", .vStr "m"),
   ("logger", .vStr "test.blacklisted")]

/-- A verbose default configuration. -/
def cfgC5b : Config := { verbose := true }

/-- A debug-level record that already carries a `sentry` key. -/
def dC5b : EventDict := [("level", .vStr "debug"), ("sentry", .vStr "stale")]

/-- Claim C5 (counterexample).  Two verbose below-both-thresholds records for
which no submission occurs but the returned `sentry` key is NOT `"skipped"`:
(a) an ignored logger name makes `_can_record` write `"ignored"`, which
`setdefault` then keeps; (b) a pre-existing `sentry` key survives
`setdefault` untouched. -/
theorem c5_skipped_counterexample :
    (callFrom cfgC5a sdkOk (some dC5a) none dC5a =
        .ok (dC5a ++ [("sentry", PyVal.vStr "ignored")], []) ∧
      dget (dC5a ++ [("sentry", PyVal.vStr "ignored")]) "sentry" ≠
        some (.vStr "skipped")) ∧
    (callFrom cfgC5b sdkOk (some dC5b) none dC5b = .ok (dC5b, []) ∧
      dget dC5b "sentry" ≠ some (.vStr "skipped")) :=
  ⟨⟨rfl, by decide⟩, ⟨rfl, by decide⟩⟩

/-- Shared final step for the C5 cases: a call that reached the verbose
`setdefault` with no submissions marks `sentry = "skipped"` when the original
record had no `sentry` key. -/
theorem skipped_mark (cfg : Config) (d0 : EventDict) {d' : EventDict}
    {subs : List Submission}
    (h : Except.ok
        ((if cfg.verbose then
            dsetdefault (dpop d0 "sentry_skip") "sentry" (.vStr "skipped")
          else dpop d0 "sentry_skip"), ([] : List Submission)) =
      (Except.ok (d', subs) : Except Unit (EventDict × List Submission))) :
    subs = [] ∧
    (cfg.verbose = true → dget d0 "sentry" = none →
      dget d' "sentry" = some (.vStr "skipped")) := by
  cases h
  refine ⟨rfl, fun hv hno => ?_⟩
  rw [if_pos hv, dget_dsetdefault_self, dget_dpop_ne d0 (by decide), hno]
  rfl

/-- Claim C5 (amended).  When the processor is inactive, or `sentry_skip` is
truthy, or the level is below both thresholds with the logger recordable, no
submission occurs; and the verbose outcome is `"skipped"` provided the record
did not already carry a `sentry` key (in the below-thresholds case the
non-ignored logger is part of the hypothesis). -/
theorem c5_no_submission_amended
    (cfg : Config) (sdk : Sdk) (lg : Option PyVal) (d0 : EventDict) (r : Int)
    (d' : EventDict) (subs : List Submission)
    (hcase : cfg.active = false ∨
      truthy (dgetD d0 "sentry_skip" (.vBool false)) = true ∨
      (can_record cfg sdk lg (dpop d0 "sentry_skip") = .ok (true, dpop d0 "sentry_skip") ∧
        levelLookup (dpop d0 "sentry_skip") = .ok r ∧
        r < cfg.level ∧ r < cfg.breadcrumbLevel))
    (hcall : callFrom cfg sdk (some d0) lg d0 = .ok (d', subs)) :
    subs = [] ∧
    (cfg.verbose = true → dget d0 "sentry" = none →
      dget d' "sentry" = some (.vStr "skipped")) := by
  rcases hcase with h | h | ⟨hcr, hlv, hl, hbc⟩
  · rw [callFrom_noActive (Or.inl h)] at hcall
    exact skipped_mark cfg d0 hcall
  · rw [callFrom_noActive (Or.inr h)] at hcall
    exact skipped_mark cfg d0 hcall
  · by_cases ha : cfg.active = true
    · by_cases hs : truthy (dgetD d0 "sentry_skip" (.vBool false)) = false
      · rw [callFrom_submit ha hs hcr hlv] at hcall
        simp only [if_neg (not_le.mpr hl), if_neg (not_le.mpr hbc),
          List.append_nil] at hcall
        exact skipped_mark cfg d0 hcall
      · have hs' : truthy (dgetD d0 "sentry_skip" (.vBool false)) = true := by
          cases htr : truthy (dgetD d0 "sentry_skip" (.vBool false)) with
          | false => exact absurd htr hs
          | true => rfl
        rw [callFrom_noActive (Or.inr hs')] at hcall
        exact skipped_mark cfg d0 hcall
    · have ha' : cfg.active = false := by
        cases hab : cfg.active with
        | false => rfl
        | true => exact absurd hab ha
      rw [callFrom_noActive (Or.inl ha')] at hcall
      exact skipped_mark cfg d0 hcall

/-- The processor configuration of the C5 witness: inactive and verbose. -/
def cfgC5w : Config := { active := false, verbose := true }

/-- A minimal debug-level record for the C5 witness. -/
def dC5w : EventDict := [("level", .vStr "debug")]

/-- Witness for `c5_no_submission_amended`: an inactive verbose processor
returns the record marked `"skipped"` with no submissions. -/
theorem c5_no_submission_amended_witness :
    ([] : List Submission) = [] ∧
    (cfgC5w.verbose = true → dget dC5w "sentry" = none →
      dget [("level", PyVal.vStr "debug"), ("sentry", PyVal.vStr "skipped")]
        "sentry" = some (.vStr "skipped")) :=
  c5_no_submission_amended cfgC5w sdkOk none dC5w 0 _ _ (Or.inl rfl) rfl

/-! ### Claim C6 -/

/-- The processor configuration of the C6 counterexample: an explicit tag-key
list naming `sentry_skip`. -/
def cfgC6 : Config := { tagKeys := .keyList ["sentry_skip"] }

/-- An error-level record carrying a falsy `sentry_skip` flag. -/
def dC6 : EventDict :=
  [("level", .vStr "error"), ("event", .vStr "m"), ("sentry_skip", .vBool false)]

/-- Claim C6 (counterexample).  With `tag_keys = ["sentry_skip"]` and a record
carrying `sentry_skip: False` (falsy, so the record is still submitted), the
pre-mutation snapshot contains a `sentry_skip` entry that the claim says must
appear in the tags, but the comprehension in `_get_event_and_hint` reads the
LIVE dict, from which `sentry_skip` was already popped: the submitted tags
are empty. -/
theorem c6_tags_counterexample :
    errTags (subsOfE (callFrom cfgC6 sdkOk (some dC6) none dC6)) = [some []] ∧
    dC6.filter (fun p => ["sentry_skip"].contains p.1) =
      [("sentry_skip", PyVal.vBool false)] ∧
    (some ([] : EventDict)) ≠ some [("sentry_skip", PyVal.vBool false)] :=
  ⟨rfl, rfl, by decide⟩

/-- Claim C6 (amended).  On the submission path the single error submission's
tags are: the full pre-mutation snapshot for `"__all__"`; for an explicit key
list, exactly the entries of the post-pop live record (the snapshot minus the
`sentry_skip` key) whose key is listed, in list order; and absent when
`tag_keys` is `None`. -/
theorem c6_tags_amended
    (cfg : Config) (sdk : Sdk) (lg : Option PyVal) (d0 : EventDict) (r : Int)
    (ev : SentryEvent) (hint : Nat) (d' : EventDict) (subs : List Submission)
    (hact : cfg.active = true)
    (hskip : truthy (dgetD d0 "sentry_skip" (.vBool false)) = false)
    (hcr : can_record cfg sdk lg (dpop d0 "sentry_skip") = .ok (true, dpop d0 "sentry_skip"))
    (hlv : levelLookup (dpop d0 "sentry_skip") = .ok r)
    (hr : cfg.level ≤ r)
    (hbuild : get_event_and_hint cfg sdk (some d0) (dpop d0 "sentry_skip") = .ok (ev, hint))
    (hcall : callFrom cfg sdk (some d0) lg d0 = .ok (d', subs)) :
    subs.filter Submission.isErr = [Submission.errEvent ev hint] ∧
    ev.tags = tagsOf cfg.tagKeys d0 (dpop d0 "sentry_skip") := by
  obtain ⟨crumbs, hsubs, _, hfil, _⟩ :=
    callFrom_submit_parts hact hskip hcr hlv hr hbuild hcall
  obtain ⟨ev0, hb⟩ := get_event_and_hint_base_inv hbuild
  obtain ⟨_, _, _, htags, _⟩ := get_event_and_hint_char hb hbuild
  refine ⟨?_, htags⟩
  rw [hsubs, List.filter_cons]
  simp [Submission.isErr, hfil]

/-- The processor configuration of the C6 witness: `tag_keys = "__all__"`. -/
def cfgC6w : Config := { tagKeys := .allKeys }

/-- Witness for `c6_tags_amended` with `"__all__"`: the submitted tags are the
full pre-mutation snapshot, `sentry_skip` entry included. -/
theorem c6_tags_amended_witness :
    [Submission.errEvent
        { excTypeName := none, message := .vStr "m", level := .vStr "error",
          logger := none, contexts := some dC6, tags := some dC6 } 0,
      Submission.crumb
        { btype := "log", level := .vStr "error", category := .vNone,
          message := .vStr "m", timestamp := .vNone, data := [] }
        [("level", .vStr "error"), ("event", .vStr "m"),
         ("sentry_id", .vStr "id1")]].filter Submission.isErr =
      [Submission.errEvent
        { excTypeName := none, message := .vStr "m", level := .vStr "error",
          logger := none, contexts := some dC6, tags := some dC6 } 0] ∧
    ({ excTypeName := none, message := .vStr "m", level := .vStr "error",
        logger := none, contexts := some dC6, tags := some dC6 } : SentryEvent).tags =
      tagsOf cfgC6w.tagKeys dC6 (dpop dC6 "sentry_skip") :=
  c6_tags_amended cfgC6w sdkOk none dC6 40
    { excTypeName := none, message := .vStr "m", level := .vStr "error",
      logger := none, contexts := some dC6, tags := some dC6 } 0 _ _
    rfl rfl rfl rfl (by decide) rfl rfl

/-! ### Claim C7 -/

/-- Claim C7.  With the processor active and not skipped, a resolved logger
name that is matchable (a string, absent, or falsy): when it glob-matches
some pattern of the SDK default set or the configured set, the call makes no
submission and (verbose) marks `sentry = "ignored"`; when it matches no
pattern — in particular when it is absent — `_can_record` accepts without
error and, at or above the error threshold, exactly one error submission is
made. -/
theorem c7_ignored_loggers
    (cfg : Config) (sdk : Sdk) (lg : Option PyVal) (d0 : EventDict) (r : Int)
    (ev : SentryEvent) (hint : Nat) (d' : EventDict) (subs : List Submission)
    (hact : cfg.active = true)
    (hskip : truthy (dgetD d0 "sentry_skip" (.vBool false)) = false)
    (hname : nameOkForMatch (get_logger_name lg (dpop d0 "sentry_skip")) = true)
    (hlv : levelLookup (dpop d0 "sentry_skip") = .ok r)
    (hr : cfg.level ≤ r)
    (hbuild : get_event_and_hint cfg sdk (some d0) (dpop d0 "sentry_skip") = .ok (ev, hint))
    (hcall : callFrom cfg sdk (some d0) lg d0 = .ok (d', subs)) :
    (ignoredName (sdk.ignoredLoggers ++ cfg.ignoredLoggers)
        (get_logger_name lg (dpop d0 "sentry_skip")) = false →
      can_record cfg sdk lg (dpop d0 "sentry_skip") = .ok (true, dpop d0 "sentry_skip")) ∧
    (if ignoredName (sdk.ignoredLoggers ++ cfg.ignoredLoggers)
          (get_logger_name lg (dpop d0 "sentry_skip")) then
        subs = [] ∧ (cfg.verbose = true → dget d' "sentry" = some (.vStr "ignored"))
      else subs.filter Submission.isErr = [Submission.errEvent ev hint]) := by
  by_cases hig : ignoredName (sdk.ignoredLoggers ++ cfg.ignoredLoggers)
      (get_logger_name lg (dpop d0 "sentry_skip")) = true
  · refine ⟨fun hfalse => absurd hig (by simp [hfalse]), ?_⟩
    rw [if_pos hig]
    have hcr2 := @can_record_of_ignored cfg sdk lg (dpop d0 "sentry_skip") hig
    rw [callFrom_ignored hact hskip hcr2] at hcall
    cases hcall
    refine ⟨rfl, fun hv => ?_⟩
    rw [if_pos hv, if_pos hv, dget_dsetdefault_self, dget_dset_self]
    rfl
  · have hig' : ignoredName (sdk.ignoredLoggers ++ cfg.ignoredLoggers)
        (get_logger_name lg (dpop d0 "sentry_skip")) = false := by
      cases htr : ignoredName (sdk.ignoredLoggers ++ cfg.ignoredLoggers)
          (get_logger_name lg (dpop d0 "sentry_skip")) with
      | false => rfl
      | true => exact absurd htr hig
    have hcr2 := can_record_of_not_ignored hname hig'
    refine ⟨fun _ => hcr2, ?_⟩
    rw [if_neg hig]
    obtain ⟨crumbs, hsubs, _, hfil, _⟩ :=
      callFrom_submit_parts hact hskip hcr2 hlv hr hbuild hcall
    rw [hsubs, List.filter_cons]
    simp [Submission.isErr, hfil]

/-- The processor configuration of the C7 witness: verbose with the glob
pattern `test.*`. -/
def cfgC7 : Config := { verbose := true, ignoredLoggers := ["test.*"] }

/-- An error-level record whose logger name matches `test.*`. -/
def dC7 : EventDict :=
  [("level", .vStr "error"), ("event", .vStr "m"),
   ("logger", .vStr "test.blacklisted")]

/-- Witness for `c7_ignored_loggers`: `test.blacklisted` glob-matches
`test.*`, no submission is made and the record comes back marked
`"ignored"`. -/
theorem c7_ignored_loggers_witness :
    (ignoredName (sdkOk.ignoredLoggers ++ cfgC7.ignoredLoggers)
        (get_logger_name none (dpop dC7 "sentry_skip")) = false →
      can_record cfgC7 sdkOk none (dpop dC7 "sentry_skip") =
        .ok (true, dpop dC7 "sentry_skip")) ∧
    (if ignoredName (sdkOk.ignoredLoggers ++ cfgC7.ignoredLoggers)
          (get_logger_name none (dpop dC7 "sentry_skip")) then
        ([] : List Submission) = [] ∧
        (cfgC7.verbose = true →
          dget (dC7 ++ [("sentry", PyVal.vStr "ignored")]) "sentry" =
            some (.vStr "ignored"))
      else ([] : List Submission).filter Submission.isErr =
        [Submission.errEvent
          { excTypeName := none, message := .vStr "m", level := .vStr "error",
            logger := some (.vStr "test.blacklisted"), contexts := some dC7,
            tags := none } 0]) :=
  c7_ignored_loggers cfgC7 sdkOk none dC7 40
    { excTypeName := none, message := .vStr "m", level := .vStr "error",
      logger := some (.vStr "test.blacklisted"), contexts := some dC7,
      tags := none } 0 _ _
    rfl rfl rfl rfl (by decide) rfl rfl

/-! ### Claim C8 -/

theorem dget_skipmark (cfg : Config) (d1 : EventDict) (k : String)
    (hk : k ≠ "sentry") :
    dget (if cfg.verbose then dsetdefault d1 "sentry" (.vStr "skipped") else d1) k =
      dget d1 k := by
  by_cases hv : cfg.verbose <;> simp [hv, dget_dsetdefault_ne _ _ hk]

theorem dget_skipmark_sentry (cfg : Config) (d1 : EventDict) :
    (cfg.verbose = false ∧
      (if cfg.verbose then dsetdefault d1 "sentry" (.vStr "skipped") else d1) = d1) ∨
    (cfg.verbose = true ∧
      dget (if cfg.verbose then dsetdefault d1 "sentry" (.vStr "skipped") else d1)
        "sentry" ≠ none) := by
  by_cases hv : cfg.verbose
  · exact Or.inr ⟨hv, by simp [hv, dget_dsetdefault_self]⟩
  · refine Or.inl ⟨?_, by simp [hv]⟩
    cases hab : cfg.verbose with
    | false => rfl
    | true => exact absurd hab hv

theorem master_step (cfg : Config) (X base : EventDict)
    (h1 : ∀ k, k ≠ "sentry" → k ≠ "sentry_id" → dget X k = dget base k)
    (h2 : dget X "sentry_id" = dget base "sentry_id" ∨ dget X "sentry_id" ≠ none)
    (h3 : dget X "sentry" = dget base "sentry" ∨
      (cfg.verbose = true ∧ dget X "sentry" ≠ none)) :
    (∀ k, k ≠ "sentry" → k ≠ "sentry_id" →
      dget (if cfg.verbose then dsetdefault X "sentry" (.vStr "skipped") else X) k =
        dget base k) ∧
    (dget (if cfg.verbose then dsetdefault X "sentry" (.vStr "skipped") else X)
        "sentry_id" = dget base "sentry_id" ∨
      dget (if cfg.verbose then dsetdefault X "sentry" (.vStr "skipped") else X)
        "sentry_id" ≠ none) ∧
    (dget (if cfg.verbose then dsetdefault X "sentry" (.vStr "skipped") else X)
        "sentry" = dget base "sentry" ∨
      (cfg.verbose = true ∧
        dget (if cfg.verbose then dsetdefault X "sentry" (.vStr "skipped") else X)
          "sentry" ≠ none)) := by
  refine ⟨fun k hk1 hk2 => ?_, ?_, ?_⟩
  · rw [dget_skipmark cfg X k hk1]
    exact h1 k hk1 hk2
  · rw [dget_skipmark cfg X _ (by decide)]
    exact h2
  · rcases dget_skipmark_sentry cfg X with ⟨_, heq⟩ | ⟨hv, hne⟩
    · rw [heq]
      exact h3
    · exact Or.inr ⟨hv, hne⟩

/-- Master frame fact about a completed call: away from `sentry` and
`sentry_id` the returned dict looks up exactly like the post-pop record;
`sentry_id` is preserved or non-null; `sentry` is preserved or non-null under
verbose. -/
theorem callFrom_dget_master {cfg : Config} {sdk : Sdk} {lg : Option PyVal}
    {d0 d' : EventDict} {subs : List Submission}
    (hcall : callFrom cfg sdk (some d0) lg d0 = .ok (d', subs)) :
    (∀ k, k ≠ "sentry" → k ≠ "sentry_id" →
      dget d' k = dget (dpop d0 "sentry_skip") k) ∧
    (dget d' "sentry_id" = dget (dpop d0 "sentry_skip") "sentry_id" ∨
      dget d' "sentry_id" ≠ none) ∧
    (dget d' "sentry" = dget (dpop d0 "sentry_skip") "sentry" ∨
      (cfg.verbose = true ∧ dget d' "sentry" ≠ none)) := by
  by_cases ha : cfg.active = true
  case neg =>
    have ha' : cfg.active = false := by
      cases hab : cfg.active with
      | false => rfl
      | true => exact absurd hab ha
    rw [callFrom_noActive (Or.inl ha')] at hcall
    cases hcall
    exact master_step cfg _ _ (fun k _ _ => rfl) (Or.inl rfl) (Or.inl rfl)
  case pos =>
    by_cases hsk : truthy (dgetD d0 "sentry_skip" (.vBool false)) = false
    case neg =>
      have hs' : truthy (dgetD d0 "sentry_skip" (.vBool false)) = true := by
        cases htr : truthy (dgetD d0 "sentry_skip" (.vBool false)) with
        | false => exact absurd htr hsk
        | true => rfl
      rw [callFrom_noActive (Or.inr hs')] at hcall
      cases hcall
      exact master_step cfg _ _ (fun k _ _ => rfl) (Or.inl rfl) (Or.inl rfl)
    case pos =>
      cases hcr : can_record cfg sdk lg (dpop d0 "sentry_skip") with
      | error u =>
          rw [callFrom_canrecord_error ha hsk hcr] at hcall
          cases hcall
      | ok p =>
          obtain ⟨b, d2⟩ := p
          cases b with
          | false =>
              rw [callFrom_ignored ha hsk hcr] at hcall
              cases hcall
              refine master_step cfg _ _ (fun k hk1 _ => (can_record_frame hcr k).1 hk1)
                (Or.inl ((can_record_frame hcr "sentry_id").1 (by decide))) ?_
              rcases (can_record_frame hcr "sentry").2 with he | ⟨hv2, hs2⟩
              · exact Or.inl he
              · exact Or.inr ⟨hv2, by rw [hs2]; simp⟩
          | true =>
              have hd2 : d2 = dpop d0 "sentry_skip" := can_record_true_eq hcr
              rw [hd2] at hcr
              cases hlv : levelLookup (dpop d0 "sentry_skip") with
              | error u =>
                  rw [callFrom_level_error ha hsk hcr hlv] at hcall
                  cases hcall
              | ok r =>
                  rw [callFrom_submit ha hsk hcr hlv] at hcall
                  have hsid := handle_event_sentry_id_or cfg sdk (some d0)
                    (dpop d0 "sentry_skip")
                  have hsen := handle_event_sentry_or cfg sdk (some d0)
                    (dpop d0 "sentry_skip")
                  by_cases hl : cfg.level ≤ r
                  · by_cases hbc : cfg.breadcrumbLevel ≤ r
                    · simp only [if_pos hl, if_pos hbc, handle_breadcrumb_fst] at hcall
                      cases hcall
                      refine master_step cfg _ _
                        (fun k hk1 hk2 => handle_event_fst_dget _ _ _ _ _ hk2 hk1)
                        hsid ?_
                      rcases hsen with he | ⟨hv2, hs2⟩
                      · exact Or.inl he
                      · exact Or.inr ⟨hv2, by rw [hs2]; simp⟩
                    · simp only [if_pos hl, if_neg hbc] at hcall
                      cases hcall
                      refine master_step cfg _ _
                        (fun k hk1 hk2 => handle_event_fst_dget _ _ _ _ _ hk2 hk1)
                        hsid ?_
                      rcases hsen with he | ⟨hv2, hs2⟩
                      · exact Or.inl he
                      · exact Or.inr ⟨hv2, by rw [hs2]; simp⟩
                  · by_cases hbc : cfg.breadcrumbLevel ≤ r
                    · simp only [if_neg hl, if_pos hbc, handle_breadcrumb_fst] at hcall
                      cases hcall
                      exact master_step cfg _ _ (fun k _ _ => rfl) (Or.inl rfl)
                        (Or.inl rfl)
                    · simp only [if_neg hl, if_neg hbc] at hcall
                      cases hcall
                      exact master_step cfg _ _ (fun k _ _ => rfl) (Or.inl rfl)
                        (Or.inl rfl)

/-- Claim C8.  For every completed call the returned record is the input
record mutated in place: `sentry_skip` is always gone; every other key keeps
its value except possibly `sentry` and `sentry_id`; keys the record did not
have stay absent except `sentry_id` and — only under verbose — `sentry`;
`exc_info` in particular is never removed or replaced. -/
theorem c8_record_frame
    (cfg : Config) (sdk : Sdk) (lg : Option PyVal) (d0 d' : EventDict)
    (subs : List Submission) (k : String)
    (hcall : callFrom cfg sdk (some d0) lg d0 = .ok (d', subs)) :
    dget d' "sentry_skip" = none ∧
    (k ≠ "sentry_skip" → k ≠ "sentry" → k ≠ "sentry_id" → dget d' k = dget d0 k) ∧
    (dget d0 k ≠ none → k ≠ "sentry_skip" → dget d' k ≠ none) ∧
    (dget d0 k = none → dget d' k ≠ none →
      k = "sentry_id" ∨ (k = "sentry" ∧ cfg.verbose = true)) ∧
    dget d' "exc_info" = dget d0 "exc_info" := by
  obtain ⟨m1, m2, m3⟩ := callFrom_dget_master hcall
  refine ⟨?_, ?_, ?_, ?_, ?_⟩
  · rw [m1 "sentry_skip" (by decide) (by decide), dget_dpop_self]
  · intro hk0 hk1 hk2
    rw [m1 k hk1 hk2, dget_dpop_ne _ hk0]
  · intro hne hk0
    by_cases hk1 : k = "sentry"
    · subst hk1
      rcases m3 with he | ⟨_, hnn⟩
      · rw [he, dget_dpop_ne _ hk0]
        exact hne
      · exact hnn
    · by_cases hk2 : k = "sentry_id"
      · subst hk2
        rcases m2 with he | hnn
        · rw [he, dget_dpop_ne _ hk0]
          exact hne
        · exact hnn
      · rw [m1 k hk1 hk2, dget_dpop_ne _ hk0]
        exact hne
  · intro hn0 hne
    by_cases hk2 : k = "sentry_id"
    · exact Or.inl hk2
    · by_cases hk1 : k = "sentry"
      · subst hk1
        rcases m3 with he | ⟨hv, _⟩
        · exfalso
          apply hne
          rw [he, dget_dpop_ne _ (by decide), hn0]
        · exact Or.inr ⟨rfl, hv⟩
      · by_cases hk0 : k = "sentry_skip"
        · subst hk0
          exfalso
          apply hne
          rw [m1 _ (by decide) (by decide), dget_dpop_self]
        · exfalso
          apply hne
          rw [m1 k hk1 hk2, dget_dpop_ne _ hk0, hn0]
  · rw [m1 "exc_info" (by decide) (by decide), dget_dpop_ne _ (by decide)]

/-- Witness for `c8_record_frame` at a concrete verbose call, checked at the
key `foo`. -/
theorem c8_record_frame_witness :
    dget [("level", PyVal.vStr "error"), ("event", PyVal.vStr "m"),
        ("sentry_id", PyVal.vStr "id1"), ("sentry", PyVal.vStr "sent")]
      "sentry_skip" = none ∧
    (("foo" : String) ≠ "sentry_skip" → ("foo" : String) ≠ "sentry" →
      ("foo" : String) ≠ "sentry_id" →
      dget [("level", PyVal.vStr "error"), ("event", PyVal.vStr "m"),
          ("sentry_id", PyVal.vStr "id1"), ("sentry", PyVal.vStr "sent")] "foo" =
        dget dC2 "foo") ∧
    (dget dC2 "foo" ≠ none → ("foo" : String) ≠ "sentry_skip" →
      dget [("level", PyVal.vStr "error"), ("event", PyVal.vStr "m"),
          ("sentry_id", PyVal.vStr "id1"), ("sentry", PyVal.vStr "sent")] "foo" ≠
        none) ∧
    (dget dC2 "foo" = none →
      dget [("level", PyVal.vStr "error"), ("event", PyVal.vStr "m"),
          ("sentry_id", PyVal.vStr "id1"), ("sentry", PyVal.vStr "sent")] "foo" ≠
        none →
      ("foo" : String) = "sentry_id" ∨
        (("foo" : String) = "sentry" ∧
          ({ verbose := true : Config }).verbose = true)) ∧
    dget [("level", PyVal.vStr "error"), ("event", PyVal.vStr "m"),
        ("sentry_id", PyVal.vStr "id1"), ("sentry", PyVal.vStr "sent")]
      "exc_info" = dget dC2 "exc_info" :=
  c8_record_frame { verbose := true } sdkOk none dC2 _ _ "foo" rfl

/-! ### Claim C9 -/

/-- Claim C9.  `self._original_event_dict` is the only per-call instance
state, and `__call__` overwrites it with the fresh snapshot before any use:
two sequential calls on the same instance with field-equal records produce
identical results — in particular identical submission payloads — whatever
state the first call left behind. -/
theorem c9_no_cross_call_state
    (cfg : Config) (sdk : Sdk) (lg : Option PyVal) (p q q2 : Option EventDict)
    (d : EventDict) (res res2 : Except Unit (EventDict × List Submission))
    (h1 : call cfg sdk p lg d = (q, res))
    (h2 : call cfg sdk q lg d = (q2, res2)) :
    res2 = res := by
  unfold call at h1 h2
  cases h1
  cases h2
  rfl

/-- The result of calling the default processor on `dC2` in `sdkOk`. -/
def resC9 : Except Unit (EventDict × List Submission) :=
  .ok ([("level", .vStr "error"), ("event", .vStr "m"),
        ("sentry_id", .vStr "id1")],
    [Submission.errEvent
      { excTypeName := none, message := .vStr "m", level := .vStr "error",
        logger := none, contexts := some dC2, tags := none } 0,
     Submission.crumb
      { btype := "log", level := .vStr "error", category := .vNone,
        message := .vStr "m", timestamp := .vNone, data := [] }
      [("level", .vStr "error"), ("event", .vStr "m"),
       ("sentry_id", .vStr "id1")]])

/-- Witness for `c9_no_cross_call_state`: two sequential concrete calls (the
second starting from the state the first left) produce the same result. -/
theorem c9_no_cross_call_state_witness :
    call {} sdkOk none none dC2 = (some dC2, resC9) ∧
    call {} sdkOk (some dC2) none dC2 = (some dC2, resC9) ∧
    resC9 = resC9 :=
  ⟨rfl, rfl,
    c9_no_cross_call_state {} sdkOk none none (some dC2) (some dC2) dC2
      resC9 resC9 rfl rfl⟩

/-! ### Claim C10 -/

/-- The processor configuration of the C10 witness: verbose defaults. -/
def cfgC10 : Config := { verbose := true }

/-- Claim C10.  With verbose on, when `capture_event` returns without raising
but yields a falsy submission id, the returned record carries
`sentry = "sent"` and still has no `sentry_id` key: `sentry_id` is added only
for a truthy id. -/
theorem c10_sent_without_id
    (cfg : Config) (sdk : Sdk) (lg : Option PyVal) (d0 : EventDict) (r : Int)
    (ev : SentryEvent) (hint : Nat) (sid : Option String) (d' : EventDict)
    (subs : List Submission)
    (hact : cfg.active = true)
    (hskip : truthy (dgetD d0 "sentry_skip" (.vBool false)) = false)
    (hcr : can_record cfg sdk lg (dpop d0 "sentry_skip") = .ok (true, dpop d0 "sentry_skip"))
    (hlv : levelLookup (dpop d0 "sentry_skip") = .ok r)
    (hr : cfg.level ≤ r)
    (hverb : cfg.verbose = true)
    (hbuild : get_event_and_hint cfg sdk (some d0) (dpop d0 "sentry_skip") = .ok (ev, hint))
    (hcap : sdk.captureEvent ev hint = .ok sid)
    (hsid : truthySid sid = false)
    (hnoid : dget d0 "sentry_id" = none)
    (hcall : callFrom cfg sdk (some d0) lg d0 = .ok (d', subs)) :
    dget d' "sentry" = some (.vStr "sent") ∧ dget d' "sentry_id" = none := by
  rw [callFrom_submit hact hskip hcr hlv] at hcall
  have hhe : (handle_event cfg sdk (some d0) (dpop d0 "sentry_skip")).1 =
      dset (dpop d0 "sentry_skip") "sentry" (.vStr "sent") := by
    rw [handle_event_sid_falsy hbuild hcap hsid, if_pos hverb]
  by_cases hbc : cfg.breadcrumbLevel ≤ r
  · simp only [if_pos hr, if_pos hbc, handle_breadcrumb_fst] at hcall
    cases hcall
    rw [if_pos hverb, hhe]
    constructor
    · rw [dget_dsetdefault_self, dget_dset_self]
      rfl
    · rw [dget_dsetdefault_ne _ _ (by decide), dget_dset_ne _ _ (by decide),
        dget_dpop_ne _ (by decide), hnoid]
  · simp only [if_pos hr, if_neg hbc] at hcall
    cases hcall
    rw [if_pos hverb, hhe]
    constructor
    · rw [dget_dsetdefault_self, dget_dset_self]
      rfl
    · rw [dget_dsetdefault_ne _ _ (by decide), dget_dset_ne _ _ (by decide),
        dget_dpop_ne _ (by decide), hnoid]

/-- Witness for `c10_sent_without_id`: `capture_event` returns `None`, the
record comes back with `sentry = "sent"` and no `sentry_id`. -/
theorem c10_sent_without_id_witness :
    dget [("level", PyVal.vStr "error"), ("event", PyVal.vStr "m"),
        ("sentry", PyVal.vStr "sent")] "sentry" = some (.vStr "sent") ∧
    dget [("level", PyVal.vStr "error"), ("event", PyVal.vStr "m"),
        ("sentry", PyVal.vStr "sent")] "sentry_id" = none :=
  c10_sent_without_id cfgC10 sdkNoId none dC2 40
    { excTypeName := none, message := .vStr "m", level := .vStr "error",
      logger := none, contexts := some dC2, tags := none } 0 none _ _
    rfl rfl rfl rfl (by decide) rfl rfl rfl rfl rfl rfl

end StructlogSentry
